import Mathlib

/-!
Shallow embedding of the EmailBot inquiry-to-reply pipeline (src/main.py) and
proofs about it.

Modelling conventions:
* Python `datetime.date` values are `Date` records (year/month/day); `date.toordinal`
  and `timedelta` addition are embedded with the standard proleptic-Gregorian
  ordinal arithmetic, and `str(date)` is the zero-padded ISO rendering (Python
  years are always in 1..9999, so the 4-digit padding is exact).
* Byte strings are `List Nat`; `bytes.decode()` is a strict UTF-8 decoder
  returning `Option String` (`none` models a raised `UnicodeDecodeError`).
* `urllib.parse.quote` is embedded byte-wise with its default safe set
  (unreserved characters plus the slash); case mapping in `str.lower` is
  embedded by an ASCII character map (the catalog city hints are ASCII).
* The external collaborators (generation service, SMTP delivery) are oracles
  `gen : String → Except String String` and `send : ReplyMessage → Except String Unit`;
  `Except.error` models a raised exception.
* The mailbox walk of a multipart message is flattened to the list of leaf
  parts in walk order; container parts never have content type `text/plain`,
  so omitting them does not change the extraction.
-/

namespace EmailBot

/-! ### Dates (datetime.date, timedelta) -/

structure Date where
  year : Nat
  month : Nat
  day : Nat
deriving DecidableEq

/-- Embedding of `datetime.date.toordinal` (days since 0001-01-01 = 1). -/
def Date.toordinal (dt : Date) : Nat :=
  let y := if dt.month ≤ 2 then dt.year - 1 else dt.year
  let era := y / 400
  let yoe := y % 400
  let mp := if 2 < dt.month then dt.month - 3 else dt.month + 9
  let doy := (153 * mp + 2) / 5 + dt.day - 1
  let doe := yoe * 365 + yoe / 4 - yoe / 100 + doy
  era * 146097 + doe - 305

/-- Embedding of `datetime.date.fromordinal`. -/
def Date.fromordinal (n : Nat) : Date :=
  let z := n + 305
  let era := z / 146097
  let doe := z % 146097
  let yoe := (doe - doe / 1460 + doe / 36524 - doe / 146096) / 365
  let y := yoe + era * 400
  let doy := doe - (365 * yoe + yoe / 4 - yoe / 100)
  let mp := (5 * doy + 2) / 153
  let d := doy - (153 * mp + 2) / 5 + 1
  let m := if mp < 10 then mp + 3 else mp - 9
  ⟨if m ≤ 2 then y + 1 else y, m, d⟩

/-- Embedding of `date + timedelta(days=k)` (src/main.py lines 72-73). -/
def Date.addDays (dt : Date) (k : Nat) : Date :=
  Date.fromordinal (dt.toordinal + k)

def digitChar (m : Nat) : Char := Char.ofNat (48 + m % 10)

def pad2 (n : Nat) : String := ⟨[digitChar (n / 10 % 10), digitChar (n % 10)]⟩

def pad4 (n : Nat) : String :=
  ⟨[digitChar (n / 1000 % 10), digitChar (n / 100 % 10), digitChar (n / 10 % 10),
    digitChar (n % 10)]⟩

/-- Embedding of `str(d)` for a Python date: `"%04d-%02d-%02d"`. -/
def Date.isoformat (d : Date) : String := pad4 d.year ++ "-" ++ pad2 d.month ++ "-" ++ pad2 d.day

/-- Decimal digit expansion of `n` (accumulator style); the first argument is
structural fuel, always called with fuel `n + 1 ≥` number of digits of `n`. -/
def pyNatStrAux : Nat → Nat → List Char → List Char
  | 0, _, acc => acc
  | _ + 1, 0, acc => acc
  | fuel + 1, n + 1, acc => pyNatStrAux fuel ((n + 1) / 10) (digitChar ((n + 1) % 10) :: acc)

/-- Embedding of `str(n)` for a non-negative Python int. -/
def pyNatStr (n : Nat) : String := if n = 0 then "0" else ⟨pyNatStrAux (n + 1) n []⟩

/-! ### UTF-8 codec (str.encode / bytes.decode) -/

def utf8EncodeChar (c : Char) : List Nat :=
  let n := c.toNat
  if n < 0x80 then [n]
  else if n < 0x800 then [0xC0 + n / 0x40, 0x80 + n % 0x40]
  else if n < 0x10000 then [0xE0 + n / 0x1000, 0x80 + n / 0x40 % 0x40, 0x80 + n % 0x40]
  else [0xF0 + n / 0x40000, 0x80 + n / 0x1000 % 0x40, 0x80 + n / 0x40 % 0x40, 0x80 + n % 0x40]

def strBytes (s : String) : List Nat := s.data.flatMap utf8EncodeChar

def isCont (b : Nat) : Bool := 0x80 ≤ b && b < 0xC0

/-- Strict UTF-8 decoding of a byte list; `none` models `UnicodeDecodeError`
(invalid lead or continuation bytes, truncation, overlongs, surrogates,
code points beyond U+10FFFF are all rejected, as CPython does). -/
def utf8DecodeList : List Nat → Option (List Char)
  | [] => some []
  | b :: bs =>
    if b < 0x80 then
      match utf8DecodeList bs with
      | some cs => some (Char.ofNat b :: cs)
      | none => none
    else if b < 0xC2 then none
    else if b < 0xE0 then
      match bs with
      | b1 :: bs2 =>
        if isCont b1 then
          match utf8DecodeList bs2 with
          | some cs => some (Char.ofNat ((b - 0xC0) * 0x40 + (b1 - 0x80)) :: cs)
          | none => none
        else none
      | [] => none
    else if b < 0xF0 then
      match bs with
      | b1 :: b2 :: bs2 =>
        if isCont b1 && isCont b2 then
          let cp := (b - 0xE0) * 0x1000 + (b1 - 0x80) * 0x40 + (b2 - 0x80)
          if cp < 0x800 then none
          else if 0xD800 ≤ cp && cp < 0xE000 then none
          else
            match utf8DecodeList bs2 with
            | some cs => some (Char.ofNat cp :: cs)
            | none => none
        else none
      | _ => none
    else if b < 0xF5 then
      match bs with
      | b1 :: b2 :: b3 :: bs2 =>
        if isCont b1 && isCont b2 && isCont b3 then
          let cp := (b - 0xF0) * 0x40000 + (b1 - 0x80) * 0x1000 + (b2 - 0x80) * 0x40 + (b3 - 0x80)
          if cp < 0x10000 || 0x10FFFF < cp then none
          else
            match utf8DecodeList bs2 with
            | some cs => some (Char.ofNat cp :: cs)
            | none => none
        else none
      | _ => none
    else none

/-- Embedding of `bs.decode()` on Python bytes. -/
def utf8DecodeStr (bs : List Nat) : Option String :=
  match utf8DecodeList bs with
  | some cs => some ⟨cs⟩
  | none => none

/-! ### urllib.parse.quote (default safe set) -/

/-- Bytes kept verbatim by `urllib.parse.quote`: the unreserved characters
`A-Z a-z 0-9 _ . - ~` plus the default safe character `/`. -/
def isQuoteSafeByte (b : Nat) : Bool :=
  (0x41 ≤ b && b ≤ 0x5A) || (0x61 ≤ b && b ≤ 0x7A) || (0x30 ≤ b && b ≤ 0x39) ||
  b == 0x5F || b == 0x2E || b == 0x2D || b == 0x7E || b == 0x2F

def hexUpChar (n : Nat) : Char := if n < 10 then Char.ofNat (48 + n) else Char.ofNat (55 + n % 16)

def quoteByteChars (b : Nat) : List Char :=
  if isQuoteSafeByte b then [Char.ofNat b] else ['%', hexUpChar (b / 16 % 16), hexUpChar (b % 16)]

/-- Embedding of `urllib.parse.quote(s)` (src/main.py line 41). -/
def quote (s : String) : String := ⟨(strBytes s).flatMap quoteByteChars⟩

/-! ### Link Generator (src/main.py lines 40-46) -/

/-- Embedding of `generate_airbnb_link`. -/
def generate_airbnb_link (area : String) (checkin checkout : Date)
    (adults : Nat := 2) (children : Nat := 0) (infants : Nat := 0) (pets : Nat := 0) : String :=
  "https://www.airbnb.com/s/Cairo--" ++ quote area ++ "/homes" ++
  "?checkin=" ++ checkin.isoformat ++ "&checkout=" ++ checkout.isoformat ++
  "&adults=" ++ pyNatStr adults ++ "&children=" ++ pyNatStr children ++
  "&infants=" ++ pyNatStr infants ++ "&pets=" ++ pyNatStr pets

/-! ### String predicates used in the statements -/

/-- Number of (possibly overlapping) occurrences of `pat` in the tail list. -/
def occursAux (pat : List Char) : List Char → Nat
  | [] => if pat.isEmpty then 1 else 0
  | c :: cs => (if pat.isPrefixOf (c :: cs) then 1 else 0) + occursAux pat cs

/-- Number of positions of `s` at which `pat` occurs as a substring. -/
def occursStr (pat s : String) : Nat := occursAux pat.data s.data

/-- `pat` occurs somewhere inside `s`. -/
def ContainsSubstr (s pat : String) : Prop := ∃ pre post, s = pre ++ pat ++ post

def isDigitChar (c : Char) : Bool := 48 ≤ c.toNat && c.toNat ≤ 57

/-- Characters that may appear in a well-formed http URL of the shape produced
here: unreserved characters, the path separator, percent escapes and the
scheme/query delimiters. -/
def isUrlChar (c : Char) : Bool :=
  (0x41 ≤ c.toNat && c.toNat ≤ 0x5A) || (0x61 ≤ c.toNat && c.toNat ≤ 0x7A) ||
  (0x30 ≤ c.toNat && c.toNat ≤ 0x39) ||
  c.toNat == 0x5F || c.toNat == 0x2E || c.toNat == 0x2D || c.toNat == 0x7E ||
  c.toNat == 0x2F || c.toNat == 0x25 || c.toNat == 0x3A || c.toNat == 0x3F ||
  c.toNat == 0x26 || c.toNat == 0x3D

/-- `s` is a ten character `YYYY-MM-DD` rendering. -/
def isValidIsoDate (s : String) : Bool :=
  match s.data with
  | [y1, y2, y3, y4, h1, m1, m2, h2, d1, d2] =>
    isDigitChar y1 && isDigitChar y2 && isDigitChar y3 && isDigitChar y4 &&
    h1 == '-' && h2 == '-' &&
    isDigitChar m1 && isDigitChar m2 && isDigitChar d1 && isDigitChar d2
  | _ => false

/-! ### Listing Matcher (src/main.py lines 59-67) -/

structure Listing where
  id : String
  name : String
  city_hint : String
  guests : Nat
  rating : String
  url : Option String
deriving DecidableEq

/-- Embedding of src/main.py line 63: `listing.get("url")` followed by the
Python `or` fallback to the synthesized listings URL built from the fixed base
path and the listing id. Python `or` takes the fallback when `get` returns
`None` or an empty (falsy) string. -/
def resolve_url (l : Listing) : String :=
  match l.url with
  | some u => if u = "" then "https://anqakhans.holidayfuture.com/listings/" ++ l.id else u
  | none => "https://anqakhans.holidayfuture.com/listings/" ++ l.id

/-- The resolved URL as the words of the spec describe it: the explicit `url`
field whenever it is present, the synthesized fallback only when it is absent.
Reference definition for the refinement comparison in claim C6. -/
def spec_resolve_url (l : Listing) : String :=
  match l.url with
  | some u => u
  | none => "https://anqakhans.holidayfuture.com/listings/" ++ l.id

/-- Embedding of the result format string of src/main.py line 64: name, a
star rating in parentheses, a newline, then the resolved URL. -/
def format_listing (l : Listing) : String :=
  l.name ++ " (⭐ " ++ l.rating ++ ")\n" ++ resolve_url l

/-- ASCII case mapping of one character. -/
def pyLowerChar (c : Char) : Char :=
  if 65 <= c.toNat && c.toNat <= 90 then Char.ofNat (c.toNat + 32) else c

/-- Embedding of `str.lower` (ASCII case mapping; the catalog cities are ASCII). -/
def py_lower (s : String) : String := ⟨s.data.map pyLowerChar⟩

/-- The match condition of src/main.py line 62. -/
def listing_matches (city : String) (guests : Nat) (l : Listing) : Bool :=
  py_lower l.city_hint == py_lower city && decide (guests ≤ l.guests)

/-- The loop body of `find_matching_listings`: append on match, break as soon
as three results are collected (src/main.py lines 61-66). -/
def fml_loop (city : String) (guests : Nat) : List Listing → List String → List String
  | [], results => results
  | l :: ls, results =>
    let results2 := if listing_matches city guests l then results ++ [format_listing l] else results
    if 3 ≤ results2.length then results2 else fml_loop city guests ls results2

/-- Embedding of `find_matching_listings` (src/main.py lines 59-67). -/
def find_matching_listings (listings_data : List Listing) (city : String) (guests : Nat) :
    List String :=
  fml_loop city guests listings_data []

/-! ### Context Composer (src/main.py lines 48-57 and 70-93) -/

/-- Embedding of `get_prompt()` (the triple-quoted system persona). -/
def get_prompt : String :=
  "\nYou are a professional, friendly, and detail-oriented guest experience assistant working for a short-term rental company in Cairo, Egypt.\n\nAlways help with questions related to vacation stays, Airbnb-style bookings, and guest policies.\n\nOnly ignore a question if it\x27s completely unrelated to travel (e.g., programming, politics, etc).\n\nUse the internal knowledge base provided to answer questions clearly and accurately. Be warm and helpful.\n"

/-- Embedding of `sep.join(items)`. -/
def pyJoin (sep : String) : List String → String
  | [] => ""
  | [s] => s
  | s :: ss => s ++ sep ++ pyJoin sep ss

/-- The `links` dict of src/main.py lines 78-82 (Python dicts preserve
insertion order), with the stay window of lines 71-73 inlined. -/
def area_links (today : Date) : List (String × String) :=
  let checkin := today.addDays 3
  let checkout := today.addDays 6
  [("Zamalek", generate_airbnb_link "Zamalek" checkin checkout),
   ("Maadi", generate_airbnb_link "Maadi" checkin checkout),
   ("Garden City", generate_airbnb_link "Garden City" checkin checkout)]

/-- The `custom_links` string of src/main.py line 83. -/
def custom_links (today : Date) : String :=
  pyJoin "\n" ((area_links today).map (fun kv => "[Explore " ++ kv.1 ++ "](" ++ kv.2 ++ ")"))

/-- The `suggestions` string of src/main.py lines 85-86. -/
def suggestions_block (listings_data : List Listing) : String :=
  let listings := find_matching_listings listings_data "Cairo" 5
  if listings.isEmpty then ""
  else "\n\nHere are some great options for you:\n" ++ pyJoin "\n" listings

/-- The composed system instruction of src/main.py line 93, as a function of
the clock, the retrieved knowledge context and the loaded catalog. -/
def generate_response_system_content (today : Date) (kb_context : String)
    (listings_data : List Listing) : String :=
  get_prompt ++ "\n\nUse this context if helpful:\n" ++ kb_context ++ "\n\n" ++
  custom_links today ++ "\n" ++ suggestions_block listings_data

/-! ### Mail Gateway and Polling Loop (src/main.py lines 103-149) -/

structure MsgPart where
  contentType : String
  raw : List Nat
deriving DecidableEq

/-- A fetched mailbox entry: either multipart (leaf parts in walk order) or a
single payload. -/
inductive Msg where
  | multipart (parts : List MsgPart)
  | single (raw : List Nat)
deriving DecidableEq

/-- The multipart walk of src/main.py lines 129-131: every `text/plain` part
overwrites `body`; a decode failure raises (models `.decode()`). -/
def walkExtract : List MsgPart → String → Option String
  | [], body => some body
  | p :: ps, body =>
    if p.contentType = "text/plain" then
      match utf8DecodeStr p.raw with
      | some s => walkExtract ps s
      | none => none
    else walkExtract ps body

/-- Body extraction of src/main.py lines 126-133 (`body = ""` initialisation,
multipart walk, or single decoded payload). -/
def extractBody : Msg → Option String
  | .multipart parts => walkExtract parts ""
  | .single raw => utf8DecodeStr raw

structure FetchedMsg where
  fromAddr : String
  subject : String
  msg : Msg
deriving DecidableEq

structure ReplyMessage where
  fromA : String
  toA : String
  subject : String
  body : String
deriving DecidableEq

/-- The message constructed by `send_email` (src/main.py lines 103-108):
`From` is the bot address, `To` the target, `Subject` is `"Re: " + subject`. -/
def send_email (email_address : String) (to_email subject body : String) : ReplyMessage :=
  { fromA := email_address, toA := to_email, subject := "Re: " ++ subject, body := body }

/-- Per-message outcome of one iteration of the fetch loop: a delivered reply,
or a caught-and-logged error (the `except` branch of lines 140-141). -/
inductive Outcome where
  | replied (rm : ReplyMessage)
  | errorLogged (e : String)
deriving DecidableEq

/-- The `try` block of src/main.py lines 136-141 for one message whose body
was already extracted: generate, then deliver; any raised error is caught. -/
def processOne (email_address : String) (gen : String → Except String String)
    (send : ReplyMessage → Except String Unit)
    (from_email subject body : String) : Outcome :=
  match gen body with
  | .error e => .errorLogged e
  | .ok reply =>
    let rm := send_email email_address from_email subject reply
    match send rm with
    | .error e => .errorLogged e
    | .ok _ => .replied rm

/-- One poll cycle of `check_email` (src/main.py lines 115-143) over the
fetched batch. Body extraction happens before the `try` block, so a decode
failure is an uncaught exception: it aborts the whole cycle (`Except.error`
carries the offending message). -/
def check_email (email_address : String) (gen : String → Except String String)
    (send : ReplyMessage → Except String Unit) :
    List FetchedMsg → Except FetchedMsg (List Outcome)
  | [] => .ok []
  | m :: ms =>
    match extractBody m.msg with
    | none => .error m
    | some body =>
      match check_email email_address gen send ms with
      | .error m2 => .error m2
      | .ok outs => .ok (processOne email_address gen send m.fromAddr m.subject body :: outs)

/-- The `while True: check_email()` loop of src/main.py lines 148-149, run over
a finite schedule of fetched batches; an uncaught exception in one cycle kills
the process (no later cycle runs). -/
def pollLoop (email_address : String) (gen : String → Except String String)
    (send : ReplyMessage → Except String Unit) :
    List (List FetchedMsg) → Except FetchedMsg (List (List Outcome))
  | [] => .ok []
  | b :: bs =>
    match check_email email_address gen send b with
    | .error m => .error m
    | .ok outs =>
      match pollLoop email_address gen send bs with
      | .error m => .error m
      | .ok rest => .ok (outs :: rest)

/-! ### Concrete fixtures used by witnesses and counterexamples -/

def demoListings : List Listing :=
  [⟨"a1", "Nile View Flat", "Cairo", 6, "4.8", some "https://ex.com/a1"⟩,
   ⟨"a2", "Garden Loft", "cairo", 2, "4.5", none⟩,
   ⟨"a3", "Tower Suite", "CAIRO", 8, "4.9", some ""⟩,
   ⟨"a4", "Pyramid View", "Giza", 10, "4.7", none⟩,
   ⟨"a5", "Corner Studio", "Cairo", 5, "4.2", none⟩,
   ⟨"a6", "Big Villa", "Cairo", 12, "5.0", none⟩]

def demoGen : String → Except String String :=
  fun b => if b = "fail" then .error "boom" else .ok ("rep:" ++ b)

def demoSend : ReplyMessage → Except String Unit := fun _ => .ok ()

def goodM (s : String) : FetchedMsg := ⟨s ++ "@x.com", "Hi " ++ s, .single (strBytes s)⟩

def badM : FetchedMsg := ⟨"bad@x.com", "Hi bad", .single [0xFF]⟩

def failM : FetchedMsg := ⟨"f@x.com", "Hi f", .single (strBytes "fail")⟩

def l_empty_url : Listing := ⟨"x1", "Nile Flat", "Cairo", 6, "4.8", some ""⟩

def l_with_url : Listing := ⟨"w1", "River Loft", "Cairo", 5, "4.6", some "https://ex.com/w1"⟩

/-! ### Helper lemmas: listing matcher -/

theorem fml_loop_eq (city : String) (g : Nat) :
    ∀ (ls : List Listing) (acc : List String), acc.length < 3 →
      fml_loop city g ls acc =
        acc ++ ((ls.filter (listing_matches city g)).take (3 - acc.length)).map format_listing := by
  intro ls
  induction ls with
  | nil => intro acc h; simp [fml_loop]
  | cons l ls ih =>
    intro acc h
    cases hm : listing_matches city g l with
    | true =>
      by_cases h3 : 3 ≤ acc.length + 1
      · have h32 : 3 - acc.length = 1 := by omega
        simp [fml_loop, hm, h3, List.filter_cons, h32]
      · have hlt : (acc ++ [format_listing l]).length < 3 := by simp; omega
        have hstep : 3 - acc.length = (3 - (acc.length + 1)) + 1 := by omega
        have h3a : ¬ 3 ≤ (acc ++ [format_listing l]).length := by simp; omega
        simp only [fml_loop, hm, if_true]
        rw [if_neg h3a, ih (acc ++ [format_listing l]) hlt]
        simp [List.filter_cons, hm, hstep, List.take_succ_cons]
    | false =>
      have hne : ¬ 3 ≤ acc.length := by omega
      have hun : fml_loop city g (l :: ls) acc = fml_loop city g ls acc := by
        simp [fml_loop, hm, hne]
      rw [hun, ih acc h]
      simp [List.filter_cons, hm]

theorem find_matching_listings_eq (ld : List Listing) (city : String) (g : Nat) :
    find_matching_listings ld city g =
      ((ld.filter (listing_matches city g)).take 3).map format_listing := by
  have h0 : ([] : List String).length < 3 := by simp
  have := fml_loop_eq city g ld [] h0
  simpa [find_matching_listings] using this

/-! ### Helper lemmas: body extraction -/

theorem walkExtract_all_decode : ∀ (parts : List MsgPart) (acc : String),
    (∀ p ∈ parts, p.contentType = "text/plain" → (utf8DecodeStr p.raw).isSome = true) →
    walkExtract parts acc =
      some (((parts.filter (fun p => p.contentType == "text/plain")).filterMap
        (fun p => utf8DecodeStr p.raw)).getLastD acc) := by
  intro parts
  induction parts with
  | nil => intro acc _; simp [walkExtract]
  | cons p ps ih =>
    intro acc h
    by_cases hp : p.contentType = "text/plain"
    · obtain ⟨s, hs⟩ := Option.isSome_iff_exists.mp (h p (by simp) hp)
      have hstep : walkExtract (p :: ps) acc = walkExtract ps s := by
        simp [walkExtract, hp, hs]
      have hpb : (p.contentType == "text/plain") = true := by simp [hp]
      have hfc : (p :: ps).filter (fun q => q.contentType == "text/plain")
          = p :: ps.filter (fun q => q.contentType == "text/plain") :=
        List.filter_cons_of_pos hpb
      rw [hstep, ih s (fun q hq hq2 => h q (by simp [hq]) hq2), hfc, List.filterMap_cons]
      rw [hs, List.getLastD_cons]
    · have hstep : walkExtract (p :: ps) acc = walkExtract ps acc := by
        simp [walkExtract, hp]
      rw [hstep, ih acc (fun q hq hq2 => h q (by simp [hq]) hq2)]
      simp [List.filter_cons, hp]

theorem walkExtract_no_plain : ∀ (parts : List MsgPart) (acc : String),
    (∀ p ∈ parts, ¬ p.contentType = "text/plain") → walkExtract parts acc = some acc := by
  intro parts
  induction parts with
  | nil => intro acc _; simp [walkExtract]
  | cons p ps ih =>
    intro acc h
    have hp : ¬ p.contentType = "text/plain" := h p (by simp)
    have hstep : walkExtract (p :: ps) acc = walkExtract ps acc := by
      simp [walkExtract, hp]
    rw [hstep]
    exact ih acc (fun q hq => h q (by simp [hq]))

/-! ### Claim theorems -/

/-- Claim C2: for every catalog state, city string and minimum-guest count,
`find_matching_listings` returns at most 3 entries; the result is exactly the
first (at most three) matching catalog entries in load order, formatted; every
listing behind a returned entry has a case-insensitively equal city hint and
capacity at least the requested minimum; the result is a prefix of the whole
formatted match list; and it is empty (not an error) when nothing matches. -/
theorem c2_find_matching_listings_spec (ld : List Listing) (city : String) (g : Nat) :
    (find_matching_listings ld city g).length ≤ 3
  ∧ find_matching_listings ld city g =
      ((ld.filter (listing_matches city g)).take 3).map format_listing
  ∧ (∀ l ∈ (ld.filter (listing_matches city g)).take 3,
      py_lower l.city_hint = py_lower city ∧ g ≤ l.guests)
  ∧ (∃ rest, find_matching_listings ld city g ++ rest =
      (ld.filter (listing_matches city g)).map format_listing)
  ∧ (ld.filter (listing_matches city g) = [] → find_matching_listings ld city g = []) := by
  have heq := find_matching_listings_eq ld city g
  refine ⟨?_, heq, ?_, ?_, ?_⟩
  · rw [heq]
    simp [List.length_map, List.length_take]
  · intro l hl
    have hmem := List.mem_filter.mp (List.take_subset 3 _ hl)
    have hb := hmem.2
    simpa [listing_matches, Bool.and_eq_true, beq_iff_eq, decide_eq_true_eq] using hb
  · refine ⟨((ld.filter (listing_matches city g)).drop 3).map format_listing, ?_⟩
    rw [heq, ← List.map_append, List.take_append_drop]
  · intro hf
    rw [heq, hf]
    simp

/-- Witness for C2 at a concrete catalog: length bound with a mixed-case city,
and the empty-catalog case yields the empty sequence. -/
theorem c2_find_matching_listings_spec_witness :
    (find_matching_listings demoListings "CAIRO" 5).length ≤ 3
  ∧ find_matching_listings [] "Cairo" 5 = [] :=
  ⟨(c2_find_matching_listings_spec demoListings "CAIRO" 5).1,
   (c2_find_matching_listings_spec [] "Cairo" 5).2.2.2.2 rfl⟩

/-- Claim C1 (amended): for a multipart message, the body used for processing
is the LAST plain-text part found in the message walk — each plain-text part
overwrites the previous one — and the empty string when there is none. -/
theorem c1_last_plain_part_wins (parts : List MsgPart)
    (h : ∀ p ∈ parts, p.contentType = "text/plain" → (utf8DecodeStr p.raw).isSome = true) :
    extractBody (.multipart parts) =
      some (((parts.filter (fun p => p.contentType == "text/plain")).filterMap
        (fun p => utf8DecodeStr p.raw)).getLastD "") :=
  walkExtract_all_decode parts "" h

/-- Claim C1 counterexample: a multipart message with two plain-text parts is
processed with the SECOND (last) part as its body, not the first, refuting the
claim that the first plain-text part is used and later ones are ignored. -/
theorem c1_first_part_refuted :
    extractBody (.multipart
      [⟨"text/plain", strBytes "first part"⟩, ⟨"text/plain", strBytes "second part"⟩])
      = some "second part"
  ∧ ("second part" : String) ≠ "first part" :=
  ⟨rfl, by decide⟩

/-- Witness for C1 (amended) on a concrete three-part message. -/
theorem c1_last_plain_part_wins_witness :
    extractBody (.multipart
      [⟨"text/plain", strBytes "A"⟩, ⟨"text/html", strBytes "x"⟩,
       ⟨"text/plain", strBytes "B"⟩]) = some "B" :=
  c1_last_plain_part_wins _ (by decide)

/-- Claim C10: a multipart message containing no plain-text part at all does
not fail: the body is the empty string, the generator is invoked on that empty
body, and the reply is still sent back to the sender. -/
theorem c10_no_plain_part_empty_body (ea : String) (gen : String → Except String String)
    (send : ReplyMessage → Except String Unit) (sender subj : String)
    (parts : List MsgPart) (reply : String)
    (hparts : ∀ p ∈ parts, ¬ p.contentType = "text/plain")
    (hgen : gen "" = .ok reply)
    (hsend : send (send_email ea sender subj reply) = .ok ()) :
    extractBody (.multipart parts) = some ""
  ∧ check_email ea gen send [⟨sender, subj, .multipart parts⟩]
      = .ok [.replied (send_email ea sender subj reply)] := by
  have hb : extractBody (.multipart parts) = some "" := walkExtract_no_plain parts "" hparts
  refine ⟨hb, ?_⟩
  simp [check_email, hb, processOne, hgen, hsend]

/-- Witness for C10 on a concrete html-only multipart message. -/
theorem c10_no_plain_part_empty_body_witness :
    extractBody (.multipart [⟨"text/html", strBytes "<p>x</p>"⟩]) = some ""
  ∧ check_email "bot@x.com" demoGen demoSend
      [⟨"u@x.com", "Stay", .multipart [⟨"text/html", strBytes "<p>x</p>"⟩]⟩]
      = .ok [.replied (send_email "bot@x.com" "u@x.com" "Stay" "rep:")] :=
  c10_no_plain_part_empty_body "bot@x.com" demoGen demoSend "u@x.com" "Stay"
    [⟨"text/html", strBytes "<p>x</p>"⟩] "rep:" (by decide) rfl rfl

theorem check_email_all_decode (ea : String) (gen : String → Except String String)
    (send : ReplyMessage → Except String Unit) :
    ∀ (ms : List FetchedMsg), (∀ m ∈ ms, (extractBody m.msg).isSome = true) →
      check_email ea gen send ms =
        .ok (ms.map (fun m =>
          processOne ea gen send m.fromAddr m.subject ((extractBody m.msg).getD ""))) := by
  intro ms
  induction ms with
  | nil => intro _; simp [check_email]
  | cons m ms ih =>
    intro h
    obtain ⟨b, hb⟩ := Option.isSome_iff_exists.mp (h m (by simp))
    simp [check_email, hb, ih (fun q hq => h q (by simp [hq]))]

/-- Claim C7: when every fetched body decodes, each poll cycle processes every
message of its batch independently — the outcome at each position is a pure
function of that message alone, so a generation or delivery failure for one
message (an `errorLogged` outcome) leaves all other messages of the batch
processed and replied to, and later poll cycles run unaffected. -/
theorem c7_per_message_isolation (ea : String) (gen : String → Except String String)
    (send : ReplyMessage → Except String Unit) (batches : List (List FetchedMsg))
    (h : ∀ bt ∈ batches, ∀ m ∈ bt, (extractBody m.msg).isSome = true) :
    pollLoop ea gen send batches =
      .ok (batches.map (fun bt => bt.map (fun m =>
        processOne ea gen send m.fromAddr m.subject ((extractBody m.msg).getD "")))) := by
  induction batches with
  | nil => simp [pollLoop]
  | cons bt bts ih =>
    have hb := check_email_all_decode ea gen send bt (h bt (by simp))
    simp [pollLoop, hb, ih (fun q hq m hm => h q (by simp [hq]) m hm)]

/-- Witness for C7: a batch of three messages whose middle one fails
generation still yields replies for the first and third, and the next poll
cycle still runs. -/
theorem c7_per_message_isolation_witness :
    pollLoop "bot@x.com" demoGen demoSend [[goodM "a", failM, goodM "b"], [goodM "c"]] =
      .ok [[.replied ⟨"bot@x.com", "a@x.com", "Re: Hi a", "rep:a"⟩,
            .errorLogged "boom",
            .replied ⟨"bot@x.com", "b@x.com", "Re: Hi b", "rep:b"⟩],
           [.replied ⟨"bot@x.com", "c@x.com", "Re: Hi c", "rep:c"⟩]] :=
  c7_per_message_isolation "bot@x.com" demoGen demoSend
    [[goodM "a", failM, goodM "b"], [goodM "c"]] (by decide)

/-- Claim C8 (code bug): a message whose body bytes are not decodable is NOT
caught by the per-message handler — the decode happens before the `try` block,
so the whole poll cycle aborts with the uncaught exception: the messages after
it in the batch and all later cycles are never processed, and nothing is
logged for the offending message. -/
theorem c8_undecodable_body_crashes :
    extractBody badM.msg = none
  ∧ pollLoop "bot@x.com" demoGen demoSend [[goodM "a", badM, goodM "b"], [goodM "c"]]
      = .error badM :=
  ⟨rfl, rfl⟩

/-- Claim C9: a successfully processed inquiry is answered with a reply
message addressed to the original sender whose subject is the original subject
prefixed with `"Re: "`. -/
theorem c9_reply_to_sender_with_re_subject (ea : String)
    (gen : String → Except String String) (send : ReplyMessage → Except String Unit)
    (m : FetchedMsg) (body reply : String)
    (hbody : extractBody m.msg = some body)
    (hgen : gen body = .ok reply)
    (hsend : send (send_email ea m.fromAddr m.subject reply) = .ok ()) :
    (send_email ea m.fromAddr m.subject reply).toA = m.fromAddr
  ∧ (send_email ea m.fromAddr m.subject reply).subject = "Re: " ++ m.subject
  ∧ processOne ea gen send m.fromAddr m.subject body
      = .replied (send_email ea m.fromAddr m.subject reply)
  ∧ check_email ea gen send [m] = .ok [.replied (send_email ea m.fromAddr m.subject reply)] := by
  have hpo : processOne ea gen send m.fromAddr m.subject body
      = .replied (send_email ea m.fromAddr m.subject reply) := by
    simp [processOne, hgen, hsend]
  refine ⟨rfl, rfl, hpo, ?_⟩
  simp [check_email, hbody, hpo]

/-- Witness for C9 at a concrete message and oracles. -/
theorem c9_reply_to_sender_with_re_subject_witness :
    (send_email "bot@x.com" "alice@x.com" "Trip" "rep:hello").toA = "alice@x.com"
  ∧ (send_email "bot@x.com" "alice@x.com" "Trip" "rep:hello").subject = "Re: " ++ "Trip"
  ∧ processOne "bot@x.com" demoGen demoSend "alice@x.com" "Trip" "hello"
      = .replied (send_email "bot@x.com" "alice@x.com" "Trip" "rep:hello")
  ∧ check_email "bot@x.com" demoGen demoSend
      [⟨"alice@x.com", "Trip", .single (strBytes "hello")⟩]
      = .ok [.replied (send_email "bot@x.com" "alice@x.com" "Trip" "rep:hello")] :=
  c9_reply_to_sender_with_re_subject "bot@x.com" demoGen demoSend
    ⟨"alice@x.com", "Trip", .single (strBytes "hello")⟩ "hello" "rep:hello" rfl rfl rfl

/-- Claim C4: for every clock value, every retrieved knowledge context (hence
every inquiry text) and every catalog, the composed system instruction embeds
the three area links built with check-in `today + 3` days and check-out
`today + 6` days — the stay window is the fixed rolling window, independent of
the inquiry. -/
theorem c4_fixed_stay_window (today : Date) (kb_context : String) (ld : List Listing) :
    ∃ pre post,
      generate_response_system_content today kb_context ld =
        pre ++ ("[Explore " ++ "Zamalek" ++ "](" ++
            generate_airbnb_link "Zamalek" (today.addDays 3) (today.addDays 6) ++ ")" ++ "\n" ++
          ("[Explore " ++ "Maadi" ++ "](" ++
            generate_airbnb_link "Maadi" (today.addDays 3) (today.addDays 6) ++ ")" ++ "\n" ++
           ("[Explore " ++ "Garden City" ++ "](" ++
            generate_airbnb_link "Garden City" (today.addDays 3) (today.addDays 6) ++ ")"))) ++
          post := by
  refine ⟨get_prompt ++ "\n\nUse this context if helpful:\n" ++ kb_context ++ "\n\n",
    "\n" ++ suggestions_block ld, ?_⟩
  have hcl : custom_links today =
      "[Explore " ++ "Zamalek" ++ "](" ++
        generate_airbnb_link "Zamalek" (today.addDays 3) (today.addDays 6) ++ ")" ++ "\n" ++
      ("[Explore " ++ "Maadi" ++ "](" ++
        generate_airbnb_link "Maadi" (today.addDays 3) (today.addDays 6) ++ ")" ++ "\n" ++
       ("[Explore " ++ "Garden City" ++ "](" ++
        generate_airbnb_link "Garden City" (today.addDays 3) (today.addDays 6) ++ ")")) := rfl
  simp only [generate_response_system_content, hcl]
  simp [String.append_assoc]
  rw [← String.append_assoc ")" "\n" (suggestions_block ld)]
  simp

/-- Claim C5: the composed instruction always renders exactly the three area
links, in the declared order Zamalek, Maadi, Garden City; and when the listing
matcher returns nothing the suggestions block is the empty string, so the
composed instruction simply ends after the links with no placeholder. -/
theorem c5_three_links_and_empty_block (today : Date) (kb_context : String) (ld : List Listing) :
    custom_links today =
      "[Explore " ++ "Zamalek" ++ "](" ++
        generate_airbnb_link "Zamalek" (today.addDays 3) (today.addDays 6) ++ ")" ++ "\n" ++
      ("[Explore " ++ "Maadi" ++ "](" ++
        generate_airbnb_link "Maadi" (today.addDays 3) (today.addDays 6) ++ ")" ++ "\n" ++
       ("[Explore " ++ "Garden City" ++ "](" ++
        generate_airbnb_link "Garden City" (today.addDays 3) (today.addDays 6) ++ ")"))
  ∧ (find_matching_listings ld "Cairo" 5 = [] →
      suggestions_block ld = ""
    ∧ generate_response_system_content today kb_context ld =
        get_prompt ++ "\n\nUse this context if helpful:\n" ++ kb_context ++ "\n\n" ++
        custom_links today ++ "\n") := by
  refine ⟨rfl, fun hf => ?_⟩
  have hs : suggestions_block ld = "" := by simp [suggestions_block, hf]
  refine ⟨hs, ?_⟩
  simp only [generate_response_system_content, hs]
  simp

/-- Witness for C5 at a concrete date and the empty catalog. -/
theorem c5_three_links_and_empty_block_witness :
    suggestions_block [] = ""
  ∧ generate_response_system_content ⟨2026, 10, 12⟩ "KB" [] =
      get_prompt ++ "\n\nUse this context if helpful:\n" ++ "KB" ++ "\n\n" ++
      custom_links ⟨2026, 10, 12⟩ ++ "\n" :=
  (c5_three_links_and_empty_block ⟨2026, 10, 12⟩ "KB" []).2 rfl

/-- Claim C6 counterexample: a matched catalog entry whose `url` field is
present but empty is resolved to the synthesized fallback URL, not to its
explicit (empty) `url` field, refuting the claim that the explicit field is
used whenever it is present. -/
theorem c6_explicit_url_refuted :
    l_empty_url.url = some ""
  ∧ resolve_url l_empty_url = "https://anqakhans.holidayfuture.com/listings/x1"
  ∧ spec_resolve_url l_empty_url = ""
  ∧ ¬ resolve_url l_empty_url = spec_resolve_url l_empty_url
  ∧ find_matching_listings [l_empty_url] "Cairo" 5 = [format_listing l_empty_url] :=
  ⟨rfl, rfl, rfl, by decide, rfl⟩

/-- Claim C6 (amended): every entry returned by the matcher is the formatting
of a matching catalog record, containing its display name, its star rating
and its resolved URL; the resolved URL is the explicit `url` field when that
field is present and non-empty, and the synthesized fallback (the fixed base
path plus the listing identifier) when the field is absent or empty. -/
theorem c6_formatted_listing_fields (ld : List Listing) (city : String) (g : Nat)
    (s : String) (hs : s ∈ find_matching_listings ld city g) :
    ∃ l, l ∈ ld ∧ listing_matches city g l = true
      ∧ s = format_listing l
      ∧ ContainsSubstr s l.name ∧ ContainsSubstr s l.rating
      ∧ ContainsSubstr s (resolve_url l)
      ∧ (∀ u, l.url = some u → ¬ u = "" → resolve_url l = u)
      ∧ ((l.url = none ∨ l.url = some "") →
          resolve_url l = "https://anqakhans.holidayfuture.com/listings/" ++ l.id) := by
  rw [find_matching_listings_eq] at hs
  obtain ⟨l, hl, hfmt⟩ := List.mem_map.mp hs
  have hmem := List.mem_filter.mp (List.take_subset 3 _ hl)
  refine ⟨l, hmem.1, hmem.2, hfmt.symm, ?_, ?_, ?_, ?_, ?_⟩
  · refine ⟨"", " (⭐ " ++ l.rating ++ ")\n" ++ resolve_url l, ?_⟩
    rw [← hfmt]
    simp [format_listing, String.append_assoc]
  · refine ⟨l.name ++ " (⭐ ", ")\n" ++ resolve_url l, ?_⟩
    rw [← hfmt]
    simp [format_listing, String.append_assoc]
  · refine ⟨l.name ++ " (⭐ " ++ l.rating ++ ")\n", "", ?_⟩
    rw [← hfmt]
    simp [format_listing, String.append_assoc]
  · intro u hu hne
    simp [resolve_url, hu, hne]
  · intro h
    rcases h with h | h <;> simp [resolve_url, h]

/-- Witness for C6 at a one-entry catalog with an explicit URL. -/
theorem c6_formatted_listing_fields_witness :
    ∃ l, l ∈ [l_with_url] ∧ listing_matches "Cairo" 5 l = true
      ∧ format_listing l_with_url = format_listing l
      ∧ ContainsSubstr (format_listing l_with_url) l.name
      ∧ ContainsSubstr (format_listing l_with_url) l.rating
      ∧ ContainsSubstr (format_listing l_with_url) (resolve_url l)
      ∧ (∀ u, l.url = some u → ¬ u = "" → resolve_url l = u)
      ∧ ((l.url = none ∨ l.url = some "") →
          resolve_url l = "https://anqakhans.holidayfuture.com/listings/" ++ l.id) :=
  c6_formatted_listing_fields [l_with_url] "Cairo" 5 (format_listing l_with_url) (by decide)

/-! ### Helper lemmas: URL character safety and ISO rendering -/

theorem digit_url : ∀ m : Nat, isUrlChar (digitChar m) = true := by
  intro m
  have h : m % 10 < 10 := Nat.mod_lt _ (by omega)
  have hb : ∀ k, k < 10 → isUrlChar (Char.ofNat (48 + k)) = true := by decide
  simpa [digitChar] using hb _ h

theorem digitChar_isDigit : ∀ m : Nat, isDigitChar (digitChar m) = true := by
  intro m
  have h : m % 10 < 10 := Nat.mod_lt _ (by omega)
  have hb : ∀ k, k < 10 → isDigitChar (Char.ofNat (48 + k)) = true := by decide
  simpa [digitChar] using hb _ h

theorem pad2_chars (n : Nat) : ∀ c ∈ (pad2 n).data, isUrlChar c = true := by
  intro c hc
  have hc2 : c ∈ [digitChar (n / 10 % 10), digitChar (n % 10)] := hc
  rcases List.mem_cons.mp hc2 with h | h
  · subst h; exact digit_url _
  · rcases List.mem_cons.mp h with h2 | h2
    · subst h2; exact digit_url _
    · cases h2

theorem pad4_chars (n : Nat) : ∀ c ∈ (pad4 n).data, isUrlChar c = true := by
  intro c hc
  have hc2 : c ∈ [digitChar (n / 1000 % 10), digitChar (n / 100 % 10), digitChar (n / 10 % 10),
      digitChar (n % 10)] := hc
  simp only [List.mem_cons] at hc2
  rcases hc2 with h | h | h | h | h
  · subst h; exact digit_url _
  · subst h; exact digit_url _
  · subst h; exact digit_url _
  · subst h; exact digit_url _
  · cases h

theorem append_chars {a b : String}
    (ha : ∀ c ∈ a.data, isUrlChar c = true) (hb : ∀ c ∈ b.data, isUrlChar c = true) :
    ∀ c ∈ (a ++ b).data, isUrlChar c = true := by
  intro c hc
  rw [String.data_append] at hc
  rcases List.mem_append.mp hc with h | h
  · exact ha c h
  · exact hb c h

theorem isoformat_chars (d : Date) : ∀ c ∈ d.isoformat.data, isUrlChar c = true := by
  have hd : ∀ c ∈ ("-" : String).data, isUrlChar c = true := by decide
  exact append_chars (append_chars (append_chars (append_chars (pad4_chars d.year) hd)
    (pad2_chars d.month)) hd) (pad2_chars d.day)

theorem isoformat_valid (d : Date) : isValidIsoDate d.isoformat = true := by
  have hdata : d.isoformat.data =
      [digitChar (d.year / 1000 % 10), digitChar (d.year / 100 % 10),
       digitChar (d.year / 10 % 10), digitChar (d.year % 10), '-',
       digitChar (d.month / 10 % 10), digitChar (d.month % 10), '-',
       digitChar (d.day / 10 % 10), digitChar (d.day % 10)] := by
    show (pad4 d.year ++ "-" ++ pad2 d.month ++ "-" ++ pad2 d.day).data = _
    rw [String.data_append, String.data_append, String.data_append, String.data_append]
    rfl
  unfold isValidIsoDate
  rw [hdata]
  simp [digitChar_isDigit]

theorem isQuoteSafeByte_lt (b : Nat) (h : isQuoteSafeByte b = true) : b < 128 := by
  simp only [isQuoteSafeByte, Bool.or_eq_true, Bool.and_eq_true, decide_eq_true_eq,
    beq_iff_eq] at h
  omega

theorem safeByte_url : ∀ b, b < 128 → isQuoteSafeByte b = true → isUrlChar (Char.ofNat b) = true := by
  decide

theorem hexUp_url : ∀ n, n < 16 → isUrlChar (hexUpChar n) = true := by decide

theorem quoteByteChars_url (b : Nat) : ∀ c ∈ quoteByteChars b, isUrlChar c = true := by
  intro c hc
  by_cases hb : isQuoteSafeByte b
  · have hc2 : c ∈ [Char.ofNat b] := by simpa [quoteByteChars, hb] using hc
    rcases List.mem_cons.mp hc2 with h | h
    · subst h; exact safeByte_url b (isQuoteSafeByte_lt b hb) hb
    · cases h
  · have hc2 : c ∈ ['%', hexUpChar (b / 16 % 16), hexUpChar (b % 16)] := by
      simpa [quoteByteChars, hb] using hc
    simp only [List.mem_cons] at hc2
    rcases hc2 with h | h | h | h
    · subst h; decide
    · subst h; exact hexUp_url _ (by omega)
    · subst h; exact hexUp_url _ (by omega)
    · cases h

theorem quote_chars (s : String) : ∀ c ∈ (quote s).data, isUrlChar c = true := by
  intro c hc
  have hc2 : c ∈ (strBytes s).flatMap quoteByteChars := hc
  obtain ⟨b, _, hcb⟩ := List.mem_flatMap.mp hc2
  exact quoteByteChars_url b c hcb

theorem pyNatStrAux_url : ∀ (fuel n : Nat) (acc : List Char),
    (∀ c ∈ acc, isUrlChar c = true) → ∀ c ∈ pyNatStrAux fuel n acc, isUrlChar c = true := by
  intro fuel
  induction fuel with
  | zero => intro n acc hacc c hc; exact hacc c (by simpa [pyNatStrAux] using hc)
  | succ f ih =>
    intro n acc hacc c hc
    cases n with
    | zero => exact hacc c (by simpa [pyNatStrAux] using hc)
    | succ m =>
      refine ih ((m + 1) / 10) (digitChar ((m + 1) % 10) :: acc) ?_ c
        (by simpa [pyNatStrAux] using hc)
      intro x hx
      rcases List.mem_cons.mp hx with h | h
      · subst h; exact digit_url _
      · exact hacc x h

theorem pyNatStr_chars (n : Nat) : ∀ c ∈ (pyNatStr n).data, isUrlChar c = true := by
  intro c hc
  by_cases h : n = 0
  · subst h
    have hc2 : c ∈ ("0" : String).data := hc
    have hz : ∀ x ∈ ("0" : String).data, isUrlChar x = true := by decide
    exact hz c hc2
  · have hc2 : c ∈ pyNatStrAux (n + 1) n [] := by
      simpa [pyNatStr, h] using hc
    exact pyNatStrAux_url (n + 1) n [] (by simp) c hc2

theorem generate_airbnb_link_chars (area : String) (ci co : Date) :
    ∀ c ∈ (generate_airbnb_link area ci co).data, isUrlChar c = true := by
  have l1 : ∀ c ∈ ("https://www.airbnb.com/s/Cairo--" : String).data, isUrlChar c = true := by
    decide
  have l2 : ∀ c ∈ ("/homes" : String).data, isUrlChar c = true := by decide
  have l3 : ∀ c ∈ ("?checkin=" : String).data, isUrlChar c = true := by decide
  have l4 : ∀ c ∈ ("&checkout=" : String).data, isUrlChar c = true := by decide
  have l5 : ∀ c ∈ ("&adults=" : String).data, isUrlChar c = true := by decide
  have l6 : ∀ c ∈ ("&children=" : String).data, isUrlChar c = true := by decide
  have l7 : ∀ c ∈ ("&infants=" : String).data, isUrlChar c = true := by decide
  have l8 : ∀ c ∈ ("&pets=" : String).data, isUrlChar c = true := by decide
  exact append_chars (append_chars (append_chars (append_chars (append_chars (append_chars
    (append_chars (append_chars (append_chars (append_chars (append_chars (append_chars
    (append_chars (append_chars l1 (quote_chars area)) l2) l3) (isoformat_chars ci)) l4)
    (isoformat_chars co)) l5) (pyNatStr_chars 2)) l6) (pyNatStr_chars 0)) l7)
    (pyNatStr_chars 0)) l8) (pyNatStr_chars 0)

/-- Claim C3 counterexample: for the area `"Cairo"` the percent-encoded area
occurs TWICE in the generated URL (the path template already contains the
word), refuting "contains the percent-encoded area exactly once". -/
theorem c3_exactly_once_refuted :
    occursStr (quote "Cairo") (generate_airbnb_link "Cairo" ⟨2026, 10, 15⟩ ⟨2026, 10, 18⟩) = 2
  ∧ ¬ occursStr (quote "Cairo")
      (generate_airbnb_link "Cairo" ⟨2026, 10, 15⟩ ⟨2026, 10, 18⟩) = 1 := by
  constructor
  · decide
  · decide

/-- Claim C3 (amended): for every area string and every date pair, the
generated URL contains the percent-encoded area at least once, carries both
dates in valid `YYYY-MM-DD` ISO form as the `checkin`/`checkout` query
parameters, and is well formed in the sense that every character of it is a
legal URL character (unreserved, delimiter, or percent escape). -/
theorem c3_link_contents (area : String) (ci co : Date) :
    ContainsSubstr (generate_airbnb_link area ci co) (quote area)
  ∧ ContainsSubstr (generate_airbnb_link area ci co) ("?checkin=" ++ ci.isoformat)
  ∧ ContainsSubstr (generate_airbnb_link area ci co) ("&checkout=" ++ co.isoformat)
  ∧ isValidIsoDate ci.isoformat = true
  ∧ isValidIsoDate co.isoformat = true
  ∧ (∀ c ∈ (generate_airbnb_link area ci co).data, isUrlChar c = true) := by
  refine ⟨?_, ?_, ?_, isoformat_valid ci, isoformat_valid co,
    generate_airbnb_link_chars area ci co⟩
  · refine ⟨"https://www.airbnb.com/s/Cairo--",
      "/homes" ++ "?checkin=" ++ ci.isoformat ++ "&checkout=" ++ co.isoformat ++
        "&adults=" ++ pyNatStr 2 ++ "&children=" ++ pyNatStr 0 ++
        "&infants=" ++ pyNatStr 0 ++ "&pets=" ++ pyNatStr 0, ?_⟩
    apply String.ext
    simp [generate_airbnb_link, String.data_append, List.append_assoc]
  · refine ⟨"https://www.airbnb.com/s/Cairo--" ++ quote area ++ "/homes",
      "&checkout=" ++ co.isoformat ++ "&adults=" ++ pyNatStr 2 ++ "&children=" ++ pyNatStr 0 ++
        "&infants=" ++ pyNatStr 0 ++ "&pets=" ++ pyNatStr 0, ?_⟩
    apply String.ext
    simp [generate_airbnb_link, String.data_append, List.append_assoc]
  · refine ⟨"https://www.airbnb.com/s/Cairo--" ++ quote area ++ "/homes" ++ "?checkin=" ++
        ci.isoformat,
      "&adults=" ++ pyNatStr 2 ++ "&children=" ++ pyNatStr 0 ++
        "&infants=" ++ pyNatStr 0 ++ "&pets=" ++ pyNatStr 0, ?_⟩
    apply String.ext
    simp [generate_airbnb_link, String.data_append, List.append_assoc]

/-- Witness for C3 (amended) at a concrete area and stay window. -/
theorem c3_link_contents_witness :
    ContainsSubstr (generate_airbnb_link "Garden City" ⟨2026, 10, 15⟩ ⟨2026, 10, 18⟩)
      (quote "Garden City")
  ∧ ContainsSubstr (generate_airbnb_link "Garden City" ⟨2026, 10, 15⟩ ⟨2026, 10, 18⟩)
      ("?checkin=" ++ Date.isoformat ⟨2026, 10, 15⟩)
  ∧ ContainsSubstr (generate_airbnb_link "Garden City" ⟨2026, 10, 15⟩ ⟨2026, 10, 18⟩)
      ("&checkout=" ++ Date.isoformat ⟨2026, 10, 18⟩)
  ∧ isValidIsoDate (Date.isoformat ⟨2026, 10, 15⟩) = true
  ∧ isValidIsoDate (Date.isoformat ⟨2026, 10, 18⟩) = true
  ∧ (∀ c ∈ (generate_airbnb_link "Garden City" ⟨2026, 10, 15⟩ ⟨2026, 10, 18⟩).data,
      isUrlChar c = true) :=
  c3_link_contents "Garden City" ⟨2026, 10, 15⟩ ⟨2026, 10, 18⟩

/-- Witness for C4 at a concrete date, knowledge context and catalog. -/
theorem c4_fixed_stay_window_witness :
    ∃ pre post,
      generate_response_system_content ⟨2026, 10, 12⟩ "KB" demoListings =
        pre ++ ("[Explore " ++ "Zamalek" ++ "](" ++
            generate_airbnb_link "Zamalek" (Date.addDays ⟨2026, 10, 12⟩ 3)
              (Date.addDays ⟨2026, 10, 12⟩ 6) ++ ")" ++ "\n" ++
          ("[Explore " ++ "Maadi" ++ "](" ++
            generate_airbnb_link "Maadi" (Date.addDays ⟨2026, 10, 12⟩ 3)
              (Date.addDays ⟨2026, 10, 12⟩ 6) ++ ")" ++ "\n" ++
           ("[Explore " ++ "Garden City" ++ "](" ++
            generate_airbnb_link "Garden City" (Date.addDays ⟨2026, 10, 12⟩ 3)
              (Date.addDays ⟨2026, 10, 12⟩ 6) ++ ")"))) ++ post :=
  c4_fixed_stay_window ⟨2026, 10, 12⟩ "KB" demoListings

end EmailBot
